import Mathlib

/-!
Verification development for the woolworths_scraper repository.

The Python sources (src/scraper.py, src/frappe_write.py, src/frappe_api.py,
src/test_frappe_integration.py) are shallowly embedded below:

* pure string manipulation (re.sub, str.strip, str.lower, str.title,
  str.replace, slicing) is embedded as executable Lean functions on
  `List Char` / `String`;
* the two regular expressions used by the scraper (the size token pattern of
  line 239 of scraper.py and the unit-price pattern of line 293) are embedded
  as hand-rolled matchers implementing exactly the Python `re` backtracking
  semantics of those two concrete patterns;
* Python `float` applied to the simple decimal literals this program builds
  is modelled as an exact rational parse (`parseFloatQ`), so monetary
  arithmetic is exact;
* the DOM is embedded at the granularity of the CSS queries the code makes:
  a listing `Entry` records the result of each `select_one` query the code
  performs on it, and a `DetailPage` records the breadcrumb structure (or is
  `poisoned`, meaning any access to it raises);
* fallible Python code (float parses, HTTP calls, Selenium calls) is embedded
  in `Except PyErr`; a `try/except` of the source is an explicit `match` on
  that result.
-/

/-- Python exception values that the embedded code can raise. -/
inductive PyErr where
  | httpError (status : Nat)
  | valueError
  | jsonError
  | webError
deriving DecidableEq, Repr

/-- Returns true when an `Except` value is a normal return (no exception). -/
def isOkE {α : Type} : Except PyErr α → Bool
  | .ok _ => true
  | .error _ => false

instance {ε α : Type} [DecidableEq ε] [DecidableEq α] : DecidableEq (Except ε α)
  | .ok a, .ok b =>
    if h : a = b then .isTrue (congrArg Except.ok h)
    else .isFalse (fun hh => h (by injection hh))
  | .error a, .error b =>
    if h : a = b then .isTrue (congrArg Except.error h)
    else .isFalse (fun hh => h (by injection hh))
  | .ok _, .error _ => .isFalse (fun hh => by injection hh)
  | .error _, .ok _ => .isFalse (fun hh => by injection hh)

/-! ## String helpers mirroring the Python string methods used by the code -/

/-- Embedding of `re.sub(r"\D", "", s)`: keep only decimal digits. -/
def digitsOnly (s : String) : String := ⟨s.data.filter Char.isDigit⟩

/-- Embedding of Python `str.strip()` on a character list. -/
def pstripL (cs : List Char) : List Char :=
  ((cs.dropWhile Char.isWhitespace).reverse.dropWhile Char.isWhitespace).reverse

/-- Embedding of Python `str.strip()`. -/
def pyStrip (s : String) : String := ⟨pstripL s.data⟩

/-- Embedding of Python `str.lower()` (the program only handles ASCII text). -/
def pyLower (s : String) : String := ⟨s.data.map Char.toLower⟩

/-- Worker for `pyCollapseWs`: the Bool records whether the previous
character was whitespace (already emitted as a single space). -/
def collapseGo : Bool → List Char → List Char
  | _, [] => []
  | prevWs, c :: rest =>
    if c.isWhitespace then
      if prevWs then collapseGo true rest else ' ' :: collapseGo true rest
    else c :: collapseGo false rest

/-- Embedding of `re.sub(r"\s+", " ", s)`: every maximal whitespace run
becomes a single space. -/
def pyCollapseWs (s : String) : String := ⟨collapseGo false s.data⟩

/-- Worker for `pyTitle`: the Bool records whether the previous character was
a letter (Python title() treats any non-letter as a word separator). -/
def titleGo : Bool → List Char → List Char
  | _, [] => []
  | prevAlpha, c :: rest =>
    if c.isAlpha then
      (if prevAlpha then c.toLower else c.toUpper) :: titleGo true rest
    else c :: titleGo false rest

/-- Embedding of Python `str.title()` for ASCII text. -/
def pyTitle (s : String) : String := ⟨titleGo false s.data⟩

/-- Worker for `pyReplace`, structurally recursive on a fuel bound (the
pattern is non-empty, so each step consumes at least one input character and
an initial fuel of the input length suffices). -/
def replaceGo (pat rep : List Char) : Nat → List Char → List Char
  | 0, l => l
  | _ + 1, [] => []
  | fuel + 1, c :: rest =>
    if pat.isPrefixOf (c :: rest) then
      rep ++ replaceGo pat rep fuel ((c :: rest).drop pat.length)
    else
      c :: replaceGo pat rep fuel rest

/-- Embedding of Python `s.replace(pat, rep)` (all occurrences, scanning left
to right, non-overlapping). The program only calls it with non-empty
patterns. -/
def pyReplace (s pat rep : String) : String :=
  if pat.data.isEmpty then s else ⟨replaceGo pat.data rep.data s.data.length s.data⟩

/-- Embedding of Python `pat in s` substring membership. -/
def strContains (s pat : String) : Bool := go s.data
  where go : List Char → Bool
  | [] => pat.data.isPrefixOf ([] : List Char)
  | l@(_ :: rest) => pat.data.isPrefixOf l || go rest

/-- Embedding of Python slicing `s[-n:]` (the last `n` characters, or the
whole string when it is shorter than `n`). -/
def strTakeRight (s : String) (n : Nat) : String := ⟨(s.data.reverse.take n).reverse⟩

/-- Embedding of Python slicing `s[:n]` (the first `n` characters). -/
def strTake (s : String) (n : Nat) : String := ⟨s.data.take n⟩

/-- Numeric value of a list of decimal digit characters. -/
def natOfDigits (cs : List Char) : Nat :=
  cs.foldl (fun n c => n * 10 + (c.toNat - '0'.toNat)) 0

/-- Model of Python `float(s)` on the simple decimal literals this program
builds (optional surrounding whitespace, optional sign, digits with an
optional fractional part). The value is kept exact as a rational. Strings
outside this shape (for which Python raises `ValueError`, e.g. `"."` or
`"1.2.3"`) yield `none`. -/
def parseFloatQ (s : String) : Option ℚ :=
  let cs := pstripL s.data
  let (neg, cs2) : Bool × List Char :=
    match cs with
    | '-' :: r => (true, r)
    | '+' :: r => (false, r)
    | _ => (false, cs)
  let intD := cs2.takeWhile Char.isDigit
  let rest := cs2.dropWhile Char.isDigit
  let mk : Nat → Nat → ℚ := fun num den =>
    if neg then mkRat (-(num : ℤ)) den else mkRat num den
  match rest with
  | [] => if intD.isEmpty then none else some (mk (natOfDigits intD) 1)
  | '.' :: fr =>
    let frD := fr.takeWhile Char.isDigit
    let rest2 := fr.dropWhile Char.isDigit
    if !rest2.isEmpty then none
    else if intD.isEmpty && frD.isEmpty then none
    else some (mk (natOfDigits intD * 10 ^ frD.length + natOfDigits frD) (10 ^ frD.length))
  | _ => none

/-! ## The unit-price regular expression

`re.match(r"\$([\d.]+) \/ (\d+(g|kg|ml|l))", raw)` from
`WoolworthsScraper._extract_unit_price` (scraper.py line 293). `re.match`
anchors at the start only; there is no end anchor and no word boundary, and
the alternation tries `g`, `kg`, `ml`, `l` in that order. -/

/-- The alternation `(g|kg|ml|l)` tried in the pattern's order at the head of
the remaining input. -/
def unitAlt (cs : List Char) : Option (List Char) :=
  if ['g'].isPrefixOf cs then some ['g']
  else if ['k', 'g'].isPrefixOf cs then some ['k', 'g']
  else if ['m', 'l'].isPrefixOf cs then some ['m', 'l']
  else if ['l'].isPrefixOf cs then some ['l']
  else none

/-- Embedding of the unit-price pattern: on success returns
(group 1, group 2) = (the `[\d.]+` amount text, the `\d+(g|kg|ml|l)` token). -/
def matchUnitPrice (s : String) : Option (String × String) :=
  match s.data with
  | '$' :: rest =>
    let g1 := rest.takeWhile (fun c => c.isDigit || c = '.')
    let r1 := rest.dropWhile (fun c => c.isDigit || c = '.')
    if g1.isEmpty then none
    else
      match r1 with
      | ' ' :: '/' :: ' ' :: r2 =>
        let ds := r2.takeWhile Char.isDigit
        let r3 := r2.dropWhile Char.isDigit
        if ds.isEmpty then none
        else
          match unitAlt r3 with
          | some u => some (⟨g1⟩, ⟨ds ++ u⟩)
          | none => none
      | _ => none
  | _ => none

/-! ## The size-token regular expression

`re.search(r"(tray\s\d+)|(\d+(\.\d+)?(\-\d+\.\d+)?\s?(g|kg|l|ml|pack))\b", t)`
from `WoolworthsScraper.extract_product_data` (scraper.py line 239).
Precedence: the trailing `\b` belongs to the second alternative only. The
search is leftmost: positions are tried left to right, and at each position
alternative 1 is tried before alternative 2. Within alternative 2 the
optional groups backtrack greedily and the unit alternation is tried in the
pattern's order `g`, `kg`, `l`, `ml`, `pack`. -/

/-- Maximal run of decimal digits at the head, and the rest. -/
def digitRun (cs : List Char) : List Char × List Char :=
  (cs.takeWhile Char.isDigit, cs.dropWhile Char.isDigit)

/-- Alternative 1, `tray\s\d+`: returns the consumed characters and the rest. -/
def matchAlt1 : List Char → Option (List Char × List Char)
  | 't' :: 'r' :: 'a' :: 'y' :: c :: rest =>
    if c.isWhitespace then
      let (ds, r) := digitRun rest
      if ds.isEmpty then none else some (['t', 'r', 'a', 'y', c] ++ ds, r)
    else none
  | _ => none

/-- Candidates for the optional group `(\.\d+)?`, greedy first. Each
candidate is (consumed, rest). -/
def fracCands (cs : List Char) : List (List Char × List Char) :=
  match cs with
  | '.' :: rest =>
    let (ds, r) := digitRun rest
    if ds.isEmpty then [([], cs)] else [('.' :: ds, r), ([], cs)]
  | _ => [([], cs)]

/-- Candidates for the optional group `(\-\d+\.\d+)?`, greedy first. -/
def rangeCands (cs : List Char) : List (List Char × List Char) :=
  match cs with
  | '-' :: rest =>
    let (d1, r1) := digitRun rest
    if d1.isEmpty then [([], cs)]
    else
      match r1 with
      | '.' :: r2 =>
        let (d2, r3) := digitRun r2
        if d2.isEmpty then [([], cs)]
        else [('-' :: d1 ++ '.' :: d2, r3), ([], cs)]
      | _ => [([], cs)]
  | _ => [([], cs)]

/-- Candidates for the optional `\s?`, greedy first. -/
def spaceCands (cs : List Char) : List (List Char × List Char) :=
  match cs with
  | c :: rest => if c.isWhitespace then [([c], rest), ([], cs)] else [([], cs)]
  | [] => [([], [])]

/-- Candidates for the alternation `(g|kg|l|ml|pack)` in the pattern's order
(every alternative that matches, so a failed word boundary can backtrack to
the next one). -/
def unitCands (cs : List Char) : List (List Char × List Char) :=
  [['g'], ['k', 'g'], ['l'], ['m', 'l'], ['p', 'a', 'c', 'k']].filterMap
    (fun u => if u.isPrefixOf cs then some (u, cs.drop u.length) else none)

/-- Regex word character (`\w`), for the `\b` boundary test. -/
def wordChar (c : Char) : Bool := c.isAlphanum || c = '_'

/-- The `\b` after alternative 2: the preceding character is always a unit
letter (a word character), so the boundary holds exactly when the remaining
input is empty or starts with a non-word character. -/
def boundaryOk : List Char → Bool
  | [] => true
  | c :: _ => !wordChar c

/-- Alternative 2 with the `\b`: `\d+(\.\d+)?(\-\d+\.\d+)?\s?(g|kg|l|ml|pack)\b`.
Candidates are enumerated in backtracking order; the first complete parse
wins. -/
def matchAlt2 (cs : List Char) : Option (List Char × List Char) :=
  let (d1, r1) := digitRun cs
  if d1.isEmpty then none
  else
    ((fracCands r1).flatMap fun fc =>
      (rangeCands fc.2).flatMap fun rc =>
        (spaceCands rc.2).flatMap fun sc =>
          (unitCands sc.2).filterMap fun uc =>
            if boundaryOk uc.2 then some (d1 ++ fc.1 ++ rc.1 ++ sc.1 ++ uc.1, uc.2)
            else none).head?

/-- One attempt of the whole pattern at a fixed position (alternative 1 is
preferred, as in the source pattern). Returns the matched text. -/
def matchAt (cs : List Char) : Option (List Char) :=
  match matchAlt1 cs with
  | some m => some m.1
  | none => (matchAlt2 cs).map (fun m => m.1)

/-- Embedding of `re.search` for the size pattern: the leftmost position with
a match wins; returns (start index in characters, matched text). -/
def sizeSearch (s : String) : Option (Nat × String) := go 0 s.data
  where go (i : Nat) : List Char → Option (Nat × String)
  | [] => none
  | l@(_ :: rest) =>
    match matchAt l with
    | some m => some (i, ⟨m⟩)
    | none => go (i + 1) rest

example : digitsOnly "wx-133211-title" = "133211" := by decide
example : sizeSearch "fresh fruit bananas yellow 1kg" = some (27, "1kg") := by decide
example : matchUnitPrice "$3.00 / 500g" = some ("3.00", "500g") := by decide
example : parseFloatQ "3.45" = some (mkRat 69 20) := by decide
example : parseFloatQ "300" = some (mkRat 300 1) := by decide
example : parseFloatQ "." = none := by decide
example : parseFloatQ "2.5" = some (mkRat 5 2) := by decide
example : pyTitle "fresh fruit bananas yellow" = "Fresh Fruit Bananas Yellow" := by decide

/-! ## Data model

A listing `Entry` records, query by query, what the CSS `select_one` calls in
`WoolworthsScraper.extract_product_data` (scraper.py lines 223-278) and its
helpers observe on one listing node:

* `title`: the `h3[id*='-title']` element (its `id` attribute and text);
* `img`: the `img[alt]` element, if any, carrying its `src` attribute
  (`img.get("src")` may itself be absent, hence the nested `Option`);
* `priceH3`: the `product-price div h3` element with its `em` (whole dollars)
  and `span` (cents) sub-element texts;
* `cupPrice`: the text of `span.cupPrice`, if present;
* `detailHref`: the `href` of `a[href*='productdetails']`, if present.
-/

/-- The title element `h3[id*='-title']`: its DOM `id` attribute (absent
attribute models `h3.get("id", "")` returning the default) and its text. -/
structure TitleElem where
  idAttr : Option String
  text : String
deriving DecidableEq, Repr

/-- The price element `product-price div h3`: texts of its `em` (whole
dollars) and `span` (cents) sub-elements, when those sub-elements exist. -/
structure PriceElem where
  em : Option String
  span : Option String
deriving DecidableEq, Repr

/-- One listing node, at the granularity of the queries the code makes. -/
structure Entry where
  title : Option TitleElem := none
  img : Option (Option String) := none
  priceH3 : Option PriceElem := none
  cupPrice : Option String := none
  detailHref : Option String := none
deriving DecidableEq, Repr

/-- One `li` of the detail page's breadcrumb container: the text of a
contained `a`, if any, and of a contained `span`, if any. -/
structure BItem where
  link : Option String
  span : Option String
deriving DecidableEq, Repr

/-- A fetched product detail page. `poisoned` is a page on which the very
first BeautifulSoup access raises (the first access the code makes is
`soup.prettify()` inside the f-string of the debug log, before anything is
collected); otherwise the page has a `cdx-breadcrumb` container with its
`li` items, or none. -/
inductive DetailPage where
  | poisoned
  | page (breadcrumb : Option (List BItem))
deriving DecidableEq, Repr

/-- The canonical product record built by `extract_product_data`. An `Option`
field is `none` when the corresponding dict key was never assigned. Monetary
values are exact rationals (the embedding of Python floats here). -/
structure Product where
  id : String
  sourceSite : String
  lastChecked : String
  lastUpdated : String
  name : String
  size : String
  imageUrl : Option (Option String) := none
  currentPrice : Option ℚ := none
  unitPrice : Option ℚ := none
  unitName : Option String := none
  product_categories : Option (List String) := none
deriving DecidableEq, Repr

/-- The environment of one extraction: the wall clock as observed by the two
`datetime.now()` calls, and the browser's behaviour when
`fetch_product_page` navigates to a detail URL (an `error` outcome models
`driver.get` or the parse raising). -/
structure ScrapeEnv where
  now1 : String
  now2 : String
  fetch : String → Except PyErr DetailPage

/-! ## Field extraction and normalization (scraper.py lines 223-309) -/

/-- Embedding of the name/size split of `extract_product_data` (scraper.py
lines 236-245): the title text is stripped, lower-cased and
whitespace-collapsed; the size-token pattern is searched; on a match, the
text before the match (stripped, title-cased) is the name and the matched
token, with every `l` replaced by `L` and `tray` by `Tray`, is the size;
otherwise the whole text is title-cased and the size is empty. -/
def prepTitleText (raw : String) : String := pyCollapseWs (pyLower (pyStrip raw))

/-- The name/size pair extracted from a raw title text. -/
def extract_name_size (raw : String) : String × String :=
  let t := prepTitleText raw
  match sizeSearch t with
  | some (i, tok) =>
    (pyTitle (pyStrip (strTake t i)), pyReplace (pyReplace tok "l" "L") "tray" "Tray")
  | none => (pyTitle t, "")

/-- Embedding of `WoolworthsScraper._extract_price` (scraper.py lines
280-287). When the price element and both sub-elements are present, the cents
text is stripped and filtered to digits, and
`float(f"{dollar}{'.' if cent_text else ''}{cent_text or '00'}")` is taken;
a failing `float` raises. When the price element or either sub-element is
missing, nothing is assigned (the entry is not discarded here). -/
def extract_price (e : Entry) : Except PyErr (Option ℚ) :=
  match e.priceH3 with
  | none => .ok none
  | some pe =>
    match pe.em, pe.span with
    | some dollar, some cent =>
      let centText := digitsOnly (pyStrip cent)
      let s := dollar ++ (if !centText.data.isEmpty then "." else "")
        ++ (if !centText.data.isEmpty then centText else "00")
      match parseFloatQ s with
      | none => .error .valueError
      | some q => .ok (some q)
    | _, _ => .ok none

/-- Embedding of `WoolworthsScraper._process_unit_price` (scraper.py lines
297-309). `unit` is `match.group(2)[-2:]`, the last two characters of the
quantity-and-unit token; the `g` and `ml` comparisons and the 1000 scalings
are kept exactly as written (the `g` branch compares a two-character string
against `"g"`). Returns the `(unitPrice, unitName)` pair assigned to the
product. -/
def process_unit_price (g1 g2 : String) : Except PyErr (ℚ × String) :=
  match parseFloatQ g1 with
  | none => .error .valueError
  | some unitPrice =>
    let unit := strTakeRight g2 2
    if unit = "g" then .ok (unitPrice * 1000, "kg")
    else if unit = "ml" then .ok (unitPrice * 1000, "L")
    else .ok (unitPrice, unit)

/-- Embedding of `WoolworthsScraper._extract_unit_price` (scraper.py lines
289-295): when `span.cupPrice` is present, its stripped text is matched
against the unit-price pattern, and a match is processed by
`process_unit_price`; otherwise nothing is assigned. -/
def extract_unit_price (e : Entry) : Except PyErr (Option (ℚ × String)) :=
  match e.cupPrice with
  | none => .ok none
  | some raw =>
    match matchUnitPrice (pyStrip raw) with
    | none => .ok none
    | some (g1, g2) =>
      match process_unit_price g1 g2 with
      | .error err => .error err
      | .ok r => .ok (some r)

/-- One breadcrumb item's label, as collected by the loop of
`WoolworthsScraper.extract_breadcrumbs` (scraper.py lines 204-213): the
stripped text of a contained link when non-empty, else the stripped text of a
contained span when non-empty, else nothing. -/
def collectBItem (it : BItem) : Option String :=
  let fromSpan : Option String :=
    match it.span with
    | some t => if !(pyStrip t).data.isEmpty then some (pyStrip t) else none
    | none => none
  match it.link with
  | some t => if !(pyStrip t).data.isEmpty then some (pyStrip t) else fromSpan
  | none => fromSpan

/-- The body of `WoolworthsScraper.extract_breadcrumbs` (scraper.py lines
192-221) before its `except` clause: a poisoned page raises at the first
access; a page without a `cdx-breadcrumb` container yields the empty list
(with a warning); otherwise the items' labels are collected in document
order. -/
def extract_breadcrumbs_body : DetailPage → Except PyErr (List String)
  | .poisoned => .error .webError
  | .page none => .ok []
  | .page (some items) => .ok (items.filterMap collectBItem)

/-- Embedding of `WoolworthsScraper.extract_breadcrumbs` including its
`try/except`: an exception is caught and the categories accumulated so far
are returned (the poisoned page raises before any item is accumulated, so
the exceptional result is the empty path). -/
def extract_breadcrumbs (p : DetailPage) : Except PyErr (List String) :=
  match extract_breadcrumbs_body p with
  | .ok l => .ok l
  | .error _ => .ok []

/-- Embedding of the detail-page block of `extract_product_data` (scraper.py
lines 258-273): when the listing node has a `productdetails` link, the page
is fetched and its breadcrumbs extracted inside an inner `try/except`; a
non-empty breadcrumb list becomes the product's category list, and an empty
list or any exception leaves the product without categories. -/
def resolveCategories (env : ScrapeEnv) (e : Entry) : Option (List String) :=
  match e.detailHref with
  | none => none
  | some href =>
    match (env.fetch ("https://www.woolworths.co.nz" ++ href)).bind extract_breadcrumbs with
    | .ok l => if l.isEmpty then none else some l
    | .error _ => none

/-- The product record assembled by `extract_product_data` once the fallible
steps have produced their values. -/
def mkProduct (env : ScrapeEnv) (h3 : TitleElem) (e : Entry)
    (currentPrice : Option ℚ) (unitP : Option (ℚ × String)) : Product :=
  { id := digitsOnly (h3.idAttr.getD "")
    sourceSite := "woolworths.co.nz"
    lastChecked := env.now1
    lastUpdated := env.now2
    name := (extract_name_size h3.text).1
    size := (extract_name_size h3.text).2
    imageUrl := e.img
    currentPrice := currentPrice
    unitPrice := unitP.map (fun r => r.1)
    unitName := unitP.map (fun r => r.2)
    product_categories := resolveCategories env e }

/-- The body of `WoolworthsScraper.extract_product_data` (scraper.py lines
223-278) before its outer `except` clause: a node without a title element
yields `none`; otherwise the price and unit-price extractions run (either
may raise), the detail page block runs inside its own `try/except`, and a
product record is returned. -/
def extract_product_data_body (env : ScrapeEnv) (e : Entry) :
    Except PyErr (Option Product) :=
  match e.title with
  | none => .ok none
  | some h3 =>
    match extract_price e with
    | .error err => .error err
    | .ok currentPrice =>
      match extract_unit_price e with
      | .error err => .error err
      | .ok unitP => .ok (some (mkProduct env h3 e currentPrice unitP))

/-- Embedding of `WoolworthsScraper.extract_product_data` including its outer
`try/except`: any exception raised by the body is caught, logged, and turned
into `none`. -/
def extract_product_data (env : ScrapeEnv) (e : Entry) :
    Except PyErr (Option Product) :=
  match extract_product_data_body env e with
  | .ok r => .ok r
  | .error _ => .ok none

/-- The extraction as seen by the page-scraping loop of
`BaseScraper.scrape_products` (an `Option`, since the call never raises). -/
def extractProductDataOpt (env : ScrapeEnv) (e : Entry) : Option Product :=
  match extract_product_data env e with
  | .ok r => r
  | .error _ => none

/-! ## Pagination traversal (scraper.py lines 119-147 and 315-332) -/

/-- The `li.next a` control as `goto_next_page` observes it: whether
`is_displayed()` holds, the value of `get_attribute('class')` (which is
`None` when the attribute is absent), and whether the scroll/click scripts
raise. -/
structure NextButton where
  displayed : Bool
  classAttr : Option String
  clickFails : Bool
deriving DecidableEq, Repr

/-- The outcome of the bounded wait for the `li.next a` control:
`timeout` is the `TimeoutException` of the ten-second `WebDriverWait`. -/
inductive NextOutcome where
  | timeout
  | found (b : NextButton)
deriving DecidableEq, Repr

/-- Embedding of `WoolworthsScraper.goto_next_page` (scraper.py lines
315-332). Every exception inside the `try` (the wait timing out, the
`'disabled' in None` TypeError when the class attribute is absent, a failing
script) is caught and turned into `False`; a control that is not displayed
or carries `disabled` in its class also yields `False`. -/
def goto_next_page : NextOutcome → Bool
  | .timeout => false
  | .found b =>
    if !b.displayed then false
    else
      match b.classAttr with
      | none => false
      | some cl => if strContains cl "disabled" then false else !b.clickFails

/-- One iteration's view of the rendered page during `scrape_products`:
the page source (`none` models `get_page_source` failing), from which
`find_product_entries` reads the listing entries; the state of the next
control for this iteration's `goto_next_page` call; and the numeric page
labels shown in the page's pagination control. The code never reads
`labels` — the field is part of the environment so that the claimed
`maxPage` scan can be stated against it. -/
structure PageView where
  source : Option (List Entry)
  next : NextOutcome
  labels : List Nat := []

/-- Embedding of the `while True` loop of `BaseScraper.scrape_products`
(scraper.py lines 119-147) over the finite trace of page views the browser
presents. `cur` is the loop's `current_page` counter, incremented after each
successful advance and never otherwise consulted. The loop breaks when the
page source is unavailable, when a page has no listing entries, or when
`goto_next_page` returns `False`. -/
def scrapeProductsAux (env : ScrapeEnv) : Nat → List PageView → List Product
  | _, [] => []
  | cur, pv :: rest =>
    match pv.source with
    | none => []
    | some entries =>
      if entries.isEmpty then []
      else
        let prods := entries.filterMap (extractProductDataOpt env)
        if goto_next_page pv.next then prods ++ scrapeProductsAux env (cur + 1) rest
        else prods

/-- Embedding of `BaseScraper.scrape_products` for one category whose pages
render as the given trace (`current_page` starts at 1). -/
def scrape_products (env : ScrapeEnv) (pages : List PageView) : List Product :=
  scrapeProductsAux env 1 pages

/-- The `maxPage` of the claim: the highest numeric page label found in the
pagination control of the first rendered page, `0` when there is none.
No corresponding computation exists in `scrape_products`. -/
def claimMaxPage (pages : List PageView) : Nat :=
  match pages with
  | [] => 0
  | pv :: _ => pv.labels.foldr max 0

/-- The pages the traversal actually visits: the longest initial run of
pages with an available source and a non-empty entry list, cut after the
first page whose next-control advance fails. -/
def visitedPages : List PageView → List PageView
  | [] => []
  | pv :: rest =>
    match pv.source with
    | none => []
    | some entries =>
      if entries.isEmpty then []
      else pv :: (if goto_next_page pv.next then visitedPages rest else [])

/-- The products one visited page contributes. -/
def pageProducts (env : ScrapeEnv) (pv : PageView) : List Product :=
  (pv.source.getD []).filterMap (extractProductDataOpt env)

/-! ## Reconciliation client (frappe_write.py; frappe_api.py and
test_frappe_integration.py contain the same three HTTP functions) -/

/-- The remote service's responses for one upsert: the status of the
existence-check GET together with its body when it parses as JSON (an
unparseable body makes `response.json()` raise), and the statuses of the
PUT and POST. -/
structure FrappeEnv where
  getStatus : Nat
  getBody : Option String
  putStatus : Nat
  postStatus : Nat
deriving DecidableEq, Repr

/-- Log events emitted by the reconciliation functions. -/
inductive LogEntry where
  | errorCheckStatus (status : Nat)
  | infoExistsUpdating
  | infoNotExistsCreating
  | infoUpdated
  | infoCreated
  | errorCreateFailed (status : Nat)
deriving DecidableEq, Repr

/-- The statuses for which `requests.Response.raise_for_status` raises an
`HTTPError`: client and server error codes. -/
def isErrStatus (s : Nat) : Bool := 400 ≤ s && s < 600

/-- Embedding of `response.raise_for_status()`. -/
def raiseForStatus (status : Nat) : Except PyErr Unit :=
  if isErrStatus status then .error (.httpError status) else .ok ()

/-- Embedding of `check_product_exists` (frappe_write.py lines 13-25; the
copies in frappe_api.py and test_frappe_integration.py are textually
identical but for a `verify=False`): a 200 returns `(True, parsed body)`,
a 404 returns `(False, None)`, and any other status logs an error and
returns `(False, None)`. -/
def check_product_exists (env : FrappeEnv) (productId : String) :
    Except PyErr ((Bool × Option String) × List LogEntry) :=
  if env.getStatus = 200 then
    match env.getBody with
    | some b => .ok ((true, some b), [])
    | none => .error .jsonError
  else if env.getStatus = 404 then .ok ((false, none), [])
  else .ok ((false, none), [.errorCheckStatus env.getStatus])

/-- The outbound wire record built by `test_write_to_frappe`
(frappe_write.py lines 60-75). -/
structure FrappeProduct where
  product_id : String
  productname : String
  source_site : String
  size : String
  image_url : Option String
  unit_price : Option ℚ
  unit_name : Option String
  original_unit_quantity : Nat
  current_price : Option ℚ
  price_history : String
  last_updated : String
  last_checked : String
  category : String
  product_categories : List String
deriving DecidableEq, Repr

/-- Embedding of the field mapping of `test_write_to_frappe` (frappe_write.py
lines 51-75): the scraped record is renamed to the wire shape; `category` is
the third element of the category list when that list has more than two
elements, else empty. -/
def toFrappe (p : Product) : FrappeProduct :=
  let cats := p.product_categories.getD []
  { product_id := p.id
    productname := p.name
    source_site := p.sourceSite
    size := p.size
    image_url := p.imageUrl.getD none
    unit_price := p.unitPrice
    unit_name := p.unitName
    original_unit_quantity := 1
    current_price := p.currentPrice
    price_history := ""
    last_updated := p.lastUpdated
    last_checked := p.lastChecked
    category := if cats.length > 2 then cats.getD 2 "" else ""
    product_categories := cats }

/-- Embedding of `update_product` (frappe_write.py lines 27-34): a PUT whose
response fails `raise_for_status` propagates the `HTTPError`. -/
def update_product (env : FrappeEnv) (productId : String) (fp : FrappeProduct) :
    Except PyErr (List LogEntry) :=
  match raiseForStatus env.putStatus with
  | .error e => .error e
  | .ok _ => .ok [LogEntry.infoUpdated]

/-- Embedding of `create_product` (frappe_write.py lines 36-49): the
`raise_for_status` of the POST runs inside a `try` whose `except` catches
exactly `requests.exceptions.HTTPError`, logs, and swallows it. -/
def create_product (env : FrappeEnv) (fp : FrappeProduct) :
    Except PyErr (List LogEntry) :=
  match raiseForStatus env.postStatus with
  | .ok _ => .ok [LogEntry.infoCreated]
  | .error (PyErr.httpError s) => .ok [LogEntry.errorCreateFailed s]
  | .error e => .error e

/-- Embedding of `test_write_to_frappe` (frappe_write.py lines 51-85): map
the record, check existence, then update when it exists and create when it
does not. Returns the emitted log on normal return; an uncaught exception
propagates to the caller. -/
def test_write_to_frappe (env : FrappeEnv) (p : Product) :
    Except PyErr (List LogEntry) :=
  let fp := toFrappe p
  match check_product_exists env p.id with
  | .error e => .error e
  | .ok (res, log1) =>
    if res.1 then
      match update_product env p.id fp with
      | .error e => .error e
      | .ok log2 => .ok (log1 ++ LogEntry.infoExistsUpdating :: log2)
    else
      match create_product env fp with
      | .error e => .error e
      | .ok log2 => .ok (log1 ++ LogEntry.infoNotExistsCreating :: log2)

/-! ## Concrete fixtures used by the counterexamples and witnesses -/

/-- An extraction environment whose detail-page fetches always raise. -/
def noFetchEnv : ScrapeEnv :=
  { now1 := "t1", now2 := "t2", fetch := fun _ => .error .webError }

/-- A listing node with a title whose price element lacks the cents
sub-element. -/
def entryMissingCents : Entry :=
  { title := some { idAttr := some "wx-1-title", text := "apple" }
    priceH3 := some { em := some "3", span := none } }

/-- A listing node whose title DOM id contains no digit. -/
def entryNoDigitsId : Entry :=
  { title := some { idAttr := some "x-title", text := "stuff" } }

/-- A listing node whose unit price is quoted per gram. -/
def entryGramUnit : Entry := { cupPrice := some "$3.00 / 500g" }

/-- A listing node whose unit price is quoted per litre (lower-case l). -/
def entryLitreUnit : Entry := { cupPrice := some "$2.00 / 1l" }

/-- A listing node with a price element whose cents text has no digits. -/
def entryNoCentsDigits : Entry :=
  { title := some { idAttr := some "wx-2-title", text := "apple" }
    priceH3 := some { em := some "3", span := some "kg" } }

/-- A listing node with a whole price of 3 dollars and 45 cents. -/
def entryWithCents : Entry :=
  { title := some { idAttr := some "wx-3-title", text := "apple" }
    priceH3 := some { em := some "3", span := some "45" } }

/-- A listing node whose cup-price amount text `.` makes `float` raise. -/
def entryBadUnitPrice : Entry :=
  { title := some { idAttr := some "a-2-title", text := "x" }
    cupPrice := some "$. / 5g" }

/-- A plain titled listing node (used by the pagination fixtures). -/
def entryTitled : Entry :=
  { title := some { idAttr := some "a-1-title", text := "apple" } }

/-- The Woolworths listing node of the spec's running example. -/
def entryBananas : Entry :=
  { title := some { idAttr := some "wx-133211-title"
                    text := "fresh fruit bananas yellow 1kg" } }

/-- A next control that is displayed, enabled and clickable. -/
def okNext : NextOutcome :=
  .found { displayed := true, classAttr := some "pagination-next", clickFails := false }

/-- Three rendered pages, one product each; the first page's pagination
control shows the numeric labels 1 and 2; the advance after the third page
times out. -/
def threePages : List PageView :=
  [ { source := some [entryTitled], next := okNext, labels := [1, 2] },
    { source := some [entryTitled], next := okNext },
    { source := some [entryTitled], next := .timeout } ]

/-- Remote responses: the product exists (GET 200 with a parseable body) and
the PUT fails with a 500. -/
def envGet200 : FrappeEnv :=
  { getStatus := 200, getBody := some "body", putStatus := 500, postStatus := 201 }

/-- Remote responses: the product is absent (GET 404) and the POST fails
with a 500. -/
def envGet404 : FrappeEnv :=
  { getStatus := 404, getBody := none, putStatus := 200, postStatus := 500 }

/-- Remote responses: the existence check returns a 503. -/
def envGet503 : FrappeEnv :=
  { getStatus := 503, getBody := none, putStatus := 200, postStatus := 500 }

/-- The mock product of frappe_write.py's `__main__` block, as a `Product`. -/
def bananaProduct : Product :=
  { id := "133211"
    sourceSite := "woolworths.co.nz"
    lastChecked := "2025-01-08T18:31:43.042304"
    lastUpdated := "2025-01-08T18:31:43.042304"
    name := "Fresh Fruit Bananas Yellow"
    size := ""
    imageUrl := some (some "https://assets.woolworths.com.au/images/2010/133211.jpg")
    currentPrice := some (mkRat 69 20)
    unitPrice := some (mkRat 69 20)
    unitName := some "kg"
    product_categories := some ["Fruit & Veg", "Fruit", "Bananas", "Fresh Fruit Bananas Yellow"] }

/-! ## Claim C1: asymmetric error handling of the upsert protocol -/

/-- Helper: `create_product` always returns normally; an error-status POST
merely changes what is logged. -/
theorem create_product_returns (env : FrappeEnv) (fp : FrappeProduct) :
    create_product env fp =
      .ok (if isErrStatus env.postStatus then [LogEntry.errorCreateFailed env.postStatus]
           else [LogEntry.infoCreated]) := by
  unfold create_product raiseForStatus
  by_cases h : isErrStatus env.postStatus = true
  · simp [h]
  · simp [h]

/-- C1. For every remote environment and product: when the existence check
reports that the product exists (GET 200 with a parseable body), an
error-status response to the PUT propagates as the `HTTPError` for that
product, and a success-status PUT returns normally; when the check reports
that it does not exist (any non-200 GET status), the call returns normally
whatever the POST status, and a failing POST is merely logged. -/
theorem c1_upsert_error_asymmetry :
    ∀ (env : FrappeEnv) (p : Product),
      (env.getStatus = 200 → ∀ b, env.getBody = some b → isErrStatus env.putStatus = true →
        test_write_to_frappe env p = .error (.httpError env.putStatus))
      ∧ (env.getStatus = 200 → ∀ b, env.getBody = some b → isErrStatus env.putStatus = false →
        test_write_to_frappe env p =
          .ok [LogEntry.infoExistsUpdating, LogEntry.infoUpdated])
      ∧ (env.getStatus ≠ 200 → isOkE (test_write_to_frappe env p) = true)
      ∧ (env.getStatus = 404 → isErrStatus env.postStatus = true →
        test_write_to_frappe env p =
          .ok [LogEntry.infoNotExistsCreating, LogEntry.errorCreateFailed env.postStatus]) := by
  intro env p
  refine ⟨?_, ?_, ?_, ?_⟩
  · intro h200 b hb hput
    simp [test_write_to_frappe, check_product_exists, h200, hb, update_product,
      raiseForStatus, hput]
  · intro h200 b hb hput
    simp [test_write_to_frappe, check_product_exists, h200, hb, update_product,
      raiseForStatus, hput]
  · intro hne
    simp only [test_write_to_frappe, check_product_exists, if_neg hne]
    by_cases h404 : env.getStatus = 404
    · rw [if_pos h404]
      simp [create_product_returns, isOkE]
    · rw [if_neg h404]
      simp [create_product_returns, isOkE]
  · intro h404 hpost
    simp [test_write_to_frappe, check_product_exists, h404, create_product,
      raiseForStatus, hpost]

/-- Witness for C1 at concrete inputs: with the mock banana product, a GET
200 followed by a PUT 500 propagates the `HTTPError`, while a GET 404
followed by a POST 500 returns normally. -/
theorem c1_upsert_error_asymmetry_witness :
    test_write_to_frappe envGet200 bananaProduct = .error (.httpError 500)
    ∧ isOkE (test_write_to_frappe envGet404 bananaProduct) = true :=
  ⟨(c1_upsert_error_asymmetry envGet200 bananaProduct).1 rfl "body" rfl (by decide),
   (c1_upsert_error_asymmetry envGet404 bananaProduct).2.2.1 (by decide)⟩

/-! ## Claim C5: classification of the existence check -/

/-- C5. For every response status of the existence check: 200 is classified
as exists with the parsed body returned, 404 as not exists, and every other
status as not exists with the response logged as an error; moreover the
check never raises on any non-200 status. -/
theorem c5_existence_check_classification :
    ∀ (env : FrappeEnv) (pid : String),
      (env.getStatus = 200 → ∀ b, env.getBody = some b →
        check_product_exists env pid = .ok ((true, some b), []))
      ∧ (env.getStatus = 404 → check_product_exists env pid = .ok ((false, none), []))
      ∧ (env.getStatus ≠ 200 → env.getStatus ≠ 404 →
        check_product_exists env pid =
          .ok ((false, none), [LogEntry.errorCheckStatus env.getStatus]))
      ∧ (env.getStatus ≠ 200 → isOkE (check_product_exists env pid) = true) := by
  intro env pid
  refine ⟨?_, ?_, ?_, ?_⟩
  · intro h200 b hb
    simp [check_product_exists, h200, hb]
  · intro h404
    simp [check_product_exists, h404]
  · intro hne hne4
    simp [check_product_exists, if_neg hne, if_neg hne4]
  · intro hne
    simp only [check_product_exists, if_neg hne]
    by_cases h404 : env.getStatus = 404 <;> simp [h404, isOkE]

/-- Witness for C5 at concrete statuses 200, 404 and 503. -/
theorem c5_existence_check_classification_witness :
    check_product_exists envGet200 "133211" = .ok ((true, some "body"), [])
    ∧ check_product_exists envGet404 "133211" = .ok ((false, none), [])
    ∧ check_product_exists envGet503 "133211" =
        .ok ((false, none), [LogEntry.errorCheckStatus 503]) :=
  ⟨(c5_existence_check_classification envGet200 "133211").1 rfl "body" rfl,
   (c5_existence_check_classification envGet404 "133211").2.1 rfl,
   (c5_existence_check_classification envGet503 "133211").2.2.1 (by decide) (by decide)⟩

/-! ## Claim C7: breadcrumb resolution never raises -/

/-- C7. Category-path resolution is total: for every detail page, including
one on which soup access raises, `extract_breadcrumbs` returns normally; and
whenever its body raises, the caught result is the empty path. -/
theorem c7_breadcrumbs_never_raise :
    (∀ p : DetailPage, isOkE (extract_breadcrumbs p) = true)
    ∧ (∀ (p : DetailPage) (err : PyErr),
        extract_breadcrumbs_body p = .error err → extract_breadcrumbs p = .ok []) := by
  constructor
  · intro p
    unfold extract_breadcrumbs
    cases extract_breadcrumbs_body p <;> rfl
  · intro p err h
    unfold extract_breadcrumbs
    rw [h]

/-- Witness for C7: the poisoned page raises inside the body, and the
function returns the empty path. -/
theorem c7_breadcrumbs_never_raise_witness :
    extract_breadcrumbs DetailPage.poisoned = .ok [] :=
  c7_breadcrumbs_never_raise.2 DetailPage.poisoned PyErr.webError rfl

/-! ## Claim C10: per-entry extraction is total -/

/-- C10. For every environment and listing node, `extract_product_data`
returns normally (a product or `none`), and any exception raised by its body
— including detail-page fetch failures, which the inner handler absorbs —
is caught and turned into `none`. -/
theorem c10_extraction_total :
    (∀ (env : ScrapeEnv) (e : Entry), isOkE (extract_product_data env e) = true)
    ∧ (∀ (env : ScrapeEnv) (e : Entry) (err : PyErr),
        extract_product_data_body env e = .error err →
        extract_product_data env e = .ok none) := by
  constructor
  · intro env e
    unfold extract_product_data
    cases extract_product_data_body env e <;> rfl
  · intro env e err h
    unfold extract_product_data
    rw [h]

/-- Witness for C10: a node whose cup-price amount `"."` makes `float`
raise a ValueError; the extraction returns `none` instead of propagating. -/
theorem c10_extraction_total_witness :
    extract_product_data noFetchEnv entryBadUnitPrice = .ok none :=
  c10_extraction_total.2 noFetchEnv entryBadUnitPrice PyErr.valueError (by decide)

/-! ## Claim C8: the name/size split -/

/-- C8. For every title text, after stripping, lower-casing and whitespace
collapse: when the size pattern matches, the name is the text before the
match (stripped, title-cased) and the size is the matched token with every
`l` replaced by `L` and `tray` by `Tray`; when it does not match, the name
is the whole text title-cased and the size is empty. The spec's example
titles evaluate as claimed. -/
theorem c8_name_size_split :
    (∀ raw : String,
      (∀ i tok, sizeSearch (prepTitleText raw) = some (i, tok) →
        extract_name_size raw =
          (pyTitle (pyStrip (strTake (prepTitleText raw) i)),
           pyReplace (pyReplace tok "l" "L") "tray" "Tray"))
      ∧ (sizeSearch (prepTitleText raw) = none →
        extract_name_size raw = (pyTitle (prepTitleText raw), "")))
    ∧ extract_name_size "fresh fruit bananas yellow 1kg" = ("Fresh Fruit Bananas Yellow", "1kg")
    ∧ extract_name_size "milk bottle 500ml" = ("Milk Bottle", "500mL") := by
  refine ⟨fun raw => ⟨?_, ?_⟩, by decide, by decide⟩
  · intro i tok h
    simp only [extract_name_size]
    rw [h]
  · intro h
    simp only [extract_name_size]
    rw [h]

/-- Witness for C8: the spec's example title, with the size token found at
character offset 27. -/
theorem c8_name_size_split_witness :
    extract_name_size "fresh fruit bananas yellow 1kg" =
      (pyTitle (pyStrip (strTake (prepTitleText "fresh fruit bananas yellow 1kg") 27)),
       pyReplace (pyReplace "1kg" "l" "L") "tray" "Tray") :=
  (c8_name_size_split.1 "fresh fruit bananas yellow 1kg").1 27 "1kg" (by decide)

/-! ## Claim C3: the price concatenation (code bug at empty cents) -/

/-- C3. Evaluation of `extract_price`: with whole text `"3"` and cents text
`"45"` the price is 3.45 as claimed; but with whole text `"3"` and a cents
text containing no digits, the code omits the decimal point and parses
`"300"`, so the price is 300, not the claimed 3.00. -/
theorem c3_price_concatenation_eval :
    extract_price entryWithCents = .ok (some (mkRat 69 20))
    ∧ extract_price entryNoCentsDigits = .ok (some (mkRat 300 1))
    ∧ mkRat 300 1 ≠ mkRat 3 1 :=
  ⟨by decide, by decide, by decide⟩

/-! ## Claim C4: a missing price sub-element does not make the entry a miss -/

/-- The record the code produces for `entryMissingCents`. -/
def appleNoPrice : Product :=
  { id := "1", sourceSite := "woolworths.co.nz", lastChecked := "t1",
    lastUpdated := "t2", name := "Apple", size := "" }

/-- C4 counterexample: a listing entry with a title whose price element
lacks the cents sub-element still yields a product record (with
`currentPrice` never assigned) — the entry is not dropped, contradicting the
claim that it is an extraction miss. -/
theorem c4_missing_price_counterexample :
    extract_product_data noFetchEnv entryMissingCents = .ok (some appleNoPrice)
    ∧ appleNoPrice.currentPrice = none :=
  ⟨by decide, rfl⟩

/-- C4 amended. For every entry with a title element whose price element is
present but lacks the whole-dollar or the cents sub-element, and whose
unit-price extraction does not raise, extraction returns a product record
with `currentPrice` unassigned — the entry is kept, not dropped. -/
theorem c4_missing_price_amended :
    ∀ (env : ScrapeEnv) (e : Entry) (h3 : TitleElem) (pe : PriceElem)
      (u : Option (ℚ × String)),
      e.title = some h3 → e.priceH3 = some pe →
      (pe.em = none ∨ pe.span = none) →
      extract_unit_price e = .ok u →
      extract_product_data env e = .ok (some (mkProduct env h3 e none u))
      ∧ (mkProduct env h3 e none u).currentPrice = none := by
  intro env e h3 pe u htitle hpe hmiss hu
  have hprice : extract_price e = .ok none := by
    unfold extract_price
    rw [hpe]
    obtain ⟨em, span⟩ := pe
    cases em with
    | none => rfl
    | some dtext =>
      cases span with
      | none => rfl
      | some ctext =>
        exfalso
        rcases hmiss with hm | hm <;> simp at hm
  refine ⟨?_, rfl⟩
  unfold extract_product_data extract_product_data_body
  rw [htitle, hprice, hu]

/-- Witness for C4 amended, at the concrete entry missing its cents
sub-element. -/
theorem c4_missing_price_amended_witness :
    extract_product_data noFetchEnv entryMissingCents =
      .ok (some (mkProduct noFetchEnv { idAttr := some "wx-1-title", text := "apple" }
        entryMissingCents none none))
    ∧ (mkProduct noFetchEnv { idAttr := some "wx-1-title", text := "apple" }
        entryMissingCents none none).currentPrice = none :=
  c4_missing_price_amended noFetchEnv entryMissingCents
    { idAttr := some "wx-1-title", text := "apple" } { em := some "3", span := none }
    none rfl rfl (Or.inr rfl) (by decide)

/-! ## Claim C9: the id is digits-only but may be empty -/

/-- The record the code produces for `entryNoDigitsId`. -/
def stuffProduct : Product :=
  { id := "", sourceSite := "woolworths.co.nz", lastChecked := "t1",
    lastUpdated := "t2", name := "Stuff", size := "" }

/-- C9 counterexample: a title element whose DOM id `"x-title"` contains no
digit still yields a returned (usable) record, whose id is empty —
contradicting the claim that every returned record has a non-empty id. -/
theorem c9_empty_id_counterexample :
    extract_product_data noFetchEnv entryNoDigitsId = .ok (some stuffProduct)
    ∧ stuffProduct.id = "" :=
  ⟨by decide, rfl⟩

/-- C9 amended. Every product record produced by extraction has an id equal
to the digits-only filter of the title element's DOM id attribute; no
non-emptiness of that id is enforced. -/
theorem c9_id_digits_amended :
    ∀ (env : ScrapeEnv) (e : Entry) (h3 : TitleElem) (p : Product),
      e.title = some h3 →
      extract_product_data env e = .ok (some p) →
      p.id = digitsOnly (h3.idAttr.getD "") := by
  intro env e h3 p htitle h
  unfold extract_product_data extract_product_data_body at h
  rw [htitle] at h
  cases hp : extract_price e with
  | error err =>
    rw [hp] at h
    simp at h
  | ok cp =>
    rw [hp] at h
    cases hu : extract_unit_price e with
    | error err =>
      rw [hu] at h
      simp at h
    | ok u =>
      rw [hu] at h
      simp only [Except.ok.injEq, Option.some.injEq] at h
      rw [← h]
      rfl

/-- The record the code produces for the spec's example listing node. -/
def bananasProduct : Product :=
  { id := "133211", sourceSite := "woolworths.co.nz", lastChecked := "t1",
    lastUpdated := "t2", name := "Fresh Fruit Bananas Yellow", size := "1kg" }

/-- Witness for C9 amended: the raw DOM id `"wx-133211-title"` yields the id
`"133211"`. -/
theorem c9_id_digits_amended_witness :
    bananasProduct.id = digitsOnly ((some "wx-133211-title").getD "") :=
  c9_id_digits_amended noFetchEnv entryBananas
    { idAttr := some "wx-133211-title", text := "fresh fruit bananas yellow 1kg" }
    bananasProduct rfl (by decide)

/-! ## Claim C6: pagination termination conditions -/

/-- Helper: the traversal loop's output is exactly the concatenation of the
per-page extractions over the visited pages, for any starting value of the
`current_page` counter. -/
theorem scrapeProductsAuxSpec (env : ScrapeEnv) :
    ∀ (cur : Nat) (pages : List PageView),
      scrapeProductsAux env cur pages = (visitedPages pages).flatMap (pageProducts env) := by
  intro cur pages
  induction pages generalizing cur with
  | nil => rfl
  | cons pv rest ih =>
    unfold scrapeProductsAux visitedPages
    cases hs : pv.source with
    | none => rfl
    | some entries =>
      by_cases he : entries.isEmpty
      · simp [he]
      · cases hg : goto_next_page pv.next
        · simp [he, hg, pageProducts, hs]
        · simp [he, hg, pageProducts, hs, ih (cur + 1)]

/-- C6 counterexample: three rendered pages of one product each, whose first
page's pagination control shows the numeric labels 1 and 2 — so the claimed
`maxPage`, determined once on entry as the highest numeric label, is 2. Under
the claim, the traversal stops as soon as `currentPage ≥ maxPage` and can
visit at most two pages, collecting at most two products. The code has no
such bound (`current_page` is never compared to anything): it collects all
three products. -/
theorem c6_pagination_counterexample :
    claimMaxPage threePages = 2
    ∧ (scrape_products noFetchEnv threePages).length = 3 :=
  ⟨by decide, by decide⟩

/-- C6 amended. The traversal terminates exactly when the page source is
unavailable, when a page yields zero listing entries, or when the
next-control advance fails — where an advance fails precisely when the
bounded wait for the control times out, the control is not displayed, its
class attribute is absent (membership test raises) or contains `disabled`,
or the activation scripts raise. The products returned are those of the
visited prefix of pages; the `current_page` counter has no influence on the
result, and no `maxPage` is computed. -/
theorem c6_pagination_termination_amended :
    (∀ (env : ScrapeEnv) (pages : List PageView),
      scrape_products env pages = (visitedPages pages).flatMap (pageProducts env))
    ∧ (∀ (env : ScrapeEnv) (a b : Nat) (pages : List PageView),
      scrapeProductsAux env a pages = scrapeProductsAux env b pages)
    ∧ goto_next_page NextOutcome.timeout = false
    ∧ (∀ btn : NextButton, goto_next_page (.found btn) =
        (btn.displayed &&
          (match btn.classAttr with
           | none => false
           | some cl => !strContains cl "disabled") && !btn.clickFails)) := by
  refine ⟨fun env pages => scrapeProductsAuxSpec env 1 pages,
    fun env a b pages => (scrapeProductsAuxSpec env a pages).trans
      (scrapeProductsAuxSpec env b pages).symm,
    rfl, ?_⟩
  intro btn
  obtain ⟨d, c, f⟩ := btn
  unfold goto_next_page
  cases d
  · rfl
  · cases c with
    | none => rfl
    | some cl =>
      by_cases hc : strContains cl "disabled" = true
      · simp [hc]
      · simp [hc]

/-! ## Claim C2: unit-price normalization takes the last two characters -/

/-- C2 counterexample: for the scraped strings `"$3.00 / 500g"` and
`"$2.00 / 1l"`, the code sets unitName to `"0g"` and `"1l"` respectively —
the last two characters of the matched quantity-and-unit token — with the
amount unchanged, instead of the claimed `"kg"` (amount times 1000) and
`"L"`. -/
theorem c2_unit_normalization_counterexample :
    extract_unit_price entryGramUnit = .ok (some (mkRat 3 1, "0g"))
    ∧ extract_unit_price entryLitreUnit = .ok (some (mkRat 2 1, "1l"))
    ∧ "0g" ≠ "kg" ∧ "0g" ≠ "L" ∧ "1l" ≠ "L" :=
  ⟨by decide, by decide, by decide, by decide, by decide⟩

/-- Helper: the last two characters of a list ending in two given
characters. -/
theorem strTakeRightPair (l : List Char) (d e : Char) :
    strTakeRight ⟨l ++ [d, e]⟩ 2 = ⟨[d, e]⟩ := by
  unfold strTakeRight
  apply congrArg
  rw [List.reverse_append]
  rfl

/-- C2 amended. For every matched amount `g1` (parsing to `q`) and every
matched token consisting of a digit-ended quantity followed by a unit in
`{g, kg, ml, l}`: a `kg` token passes through unchanged, an `ml` token
yields unitName `"L"` with the amount times 1000, and a `g` or `l` token
yields unitName equal to the token's final quantity digit followed by the
unit letter, with the amount unchanged — because the code takes the unit as
the last two characters of the token. -/
theorem c2_unit_normalization_amended :
    ∀ (g1 : String) (q : ℚ) (ds : List Char) (d : Char) (u : String),
      parseFloatQ g1 = some q → d.isDigit = true →
      (u = "g" ∨ u = "kg" ∨ u = "ml" ∨ u = "l") →
      process_unit_price g1 (⟨ds ++ [d]⟩ ++ u) =
        (if u = "kg" then .ok (q, "kg")
         else if u = "ml" then .ok (q * 1000, "L")
         else .ok (q, ⟨[d]⟩ ++ u)) := by
  intro g1 q ds d u hq hd hu
  have hdm : d ≠ 'm' := by
    intro h
    rw [h] at hd
    exact absurd hd (by decide)
  simp only [process_unit_price, hq]
  rcases hu with rfl | rfl | rfl | rfl
  · have happ : (⟨ds ++ [d]⟩ ++ "g" : String) = ⟨ds ++ [d, 'g']⟩ :=
      congrArg String.mk (List.append_assoc ds [d] ['g'])
    rw [happ, strTakeRightPair]
    have hne1 : (⟨[d, 'g']⟩ : String) ≠ "g" := by
      intro h
      have h2 := congrArg String.data h
      simp at h2
    have hne2 : (⟨[d, 'g']⟩ : String) ≠ "ml" := by
      intro h
      have h2 := congrArg String.data h
      simp at h2
    rw [if_neg hne1, if_neg hne2]
    rfl
  · have happ : (⟨ds ++ [d]⟩ ++ "kg" : String) = ⟨(ds ++ [d]) ++ ['k', 'g']⟩ := rfl
    rw [happ, strTakeRightPair]
    rw [if_neg (by decide : ¬(⟨['k', 'g']⟩ : String) = "g"),
      if_neg (by decide : ¬(⟨['k', 'g']⟩ : String) = "ml")]
    rfl
  · have happ : (⟨ds ++ [d]⟩ ++ "ml" : String) = ⟨(ds ++ [d]) ++ ['m', 'l']⟩ := rfl
    rw [happ, strTakeRightPair]
    rw [if_neg (by decide : ¬(⟨['m', 'l']⟩ : String) = "g"),
      if_pos (by decide : (⟨['m', 'l']⟩ : String) = "ml")]
    rfl
  · have happ : (⟨ds ++ [d]⟩ ++ "l" : String) = ⟨ds ++ [d, 'l']⟩ :=
      congrArg String.mk (List.append_assoc ds [d] ['l'])
    rw [happ, strTakeRightPair]
    have hne1 : (⟨[d, 'l']⟩ : String) ≠ "g" := by
      intro h
      have h2 := congrArg String.data h
      simp at h2
    have hne2 : (⟨[d, 'l']⟩ : String) ≠ "ml" := by
      intro h
      have h2 := congrArg String.data h
      simp at h2
      exact hdm h2
    rw [if_neg hne1, if_neg hne2]
    rfl

/-- Witness for C2 amended: amount `"2.5"`, quantity `"500"`, unit `g` — the
result keeps the amount 5/2 and sets unitName `"0g"`. -/
theorem c2_unit_normalization_amended_witness :
    process_unit_price "2.5" (⟨['5', '0'] ++ ['0']⟩ ++ "g") = .ok (mkRat 5 2, ⟨['0']⟩ ++ "g") :=
  c2_unit_normalization_amended "2.5" (mkRat 5 2) ['5', '0'] '0' "g" (by decide) (by decide)
    (Or.inl rfl)
